import Mathlib

/-!
Verification of the clinical-trials client (`clinical_trials_client.py`).

The embedding models Python JSON values as the inductive `Json` (numbers are
modelled as integers; the fields the program reads are strings, integers and
containers).  Python `dict.get(key, default)` raises `AttributeError` on a
non-dict receiver; this and every other exception inside the projector's
`try` block is modelled by `Option` (`none` = an exception was raised).
`fetch_all_trials`'s HTTP GET plus JSON decode is modelled by a `server`
oracle from the request parameters to `Option Json` (`none` = a
`RequestException` or a `JSONDecodeError`, the two categories its `try`
catches).  Exceptions that the Python code would NOT catch (e.g. a decoded
top-level non-dict reaching `data.get`, line 138, which is outside the
`try`) surface as `Except.error ()` in the fetch result.
-/

inductive Json where
  | null : Json
  | bool (b : Bool) : Json
  | num (n : Int) : Json
  | str (s : String) : Json
  | arr (xs : List Json) : Json
  | obj (fields : List (String × Json)) : Json

/-- Python dict lookup on the association-list model of a dict
(first binding wins; a real Python dict has unique keys). -/
def jlookup : List (String × Json) → String → Option Json
  | [], _ => none
  | (k, v) :: rest, key => if k = key then some v else jlookup rest key

/-- Python `d[k] = v` on the association-list model of a dict: updating an
existing key keeps its position (a real Python dict has at most one binding
per key, so replacing the first binding is assignment), a new key is
appended (Python insertion order). -/
def dictSet : List (String × Json) → String → Json → List (String × Json)
  | [], k, v => [(k, v)]
  | (a, b) :: rest, k, v =>
    if a = k then (k, v) :: rest else (a, b) :: dictSet rest k v

namespace Json

/-- Python `x.get(key, default)`: defined only when `x` is a dict,
raises (`none`) otherwise. -/
def getD : Json → String → Json → Option Json
  | Json.obj fs, k, d => some ((jlookup fs k).getD d)
  | _, _, _ => none

/-- Whether a value is a dict that binds the key. -/
def hasKey : Json → String → Bool
  | Json.obj fs, k => (jlookup fs k).isSome
  | _, _ => false

end Json

/-- Python iteration (`for x in v`): a list yields its elements, a dict its
keys, a string its one-character substrings; any other value raises
`TypeError` (`none`).  (`len(v)`, computed just before the loops in the
source, raises on exactly the same values.) -/
def pyIter : Json → Option (List Json)
  | Json.arr xs => some xs
  | Json.obj fs => some (fs.map (fun p => Json.str p.1))
  | Json.str s => some (s.data.map (fun c => Json.str (String.mk [c])))
  | _ => none

/-- Python truthiness (`if v:`): `None`, `False`, `0`, `""` and empty
containers are falsy. -/
def pyTruthy : Json → Bool
  | Json.null => false
  | Json.bool b => b
  | Json.num n => n != 0
  | Json.str s => s != ""
  | Json.arr xs => !xs.isEmpty
  | Json.obj fs => !fs.isEmpty

/-- Python `repr` of a JSON-shaped value, used by `str` on containers.
String escaping inside `repr` is not modelled (the fields the program
formats are plain city/country strings). -/
def pyRepr : Json → String
  | Json.null => "None"
  | Json.bool true => "True"
  | Json.bool false => "False"
  | Json.num n => toString n
  | Json.str s => "'" ++ s ++ "'"
  | Json.arr xs =>
      "[" ++ String.intercalate ", " (xs.attach.map (fun x => pyRepr x.1)) ++ "]"
  | Json.obj fs =>
      "\x7b" ++ String.intercalate ", "
        (fs.attach.map (fun p => "'" ++ p.1.1 ++ "': " ++ pyRepr p.1.2)) ++ "\x7d"
decreasing_by
  · simp_wf
    have h1 := List.sizeOf_lt_of_mem x.2
    omega
  · simp_wf
    have h1 : sizeOf p.1 ≤ sizeOf fs := le_of_lt (List.sizeOf_lt_of_mem p.2)
    have h2 : sizeOf p.1.2 < sizeOf p.1 := by
      obtain ⟨⟨k, v⟩, hp⟩ := p
      simp only [Prod.mk.sizeOf_spec]
      omega
    omega

/-- Python `str` of a JSON-shaped value, as interpolated by an f-string. -/
def pyStr : Json → String
  | Json.str s => s
  | v => pyRepr v

/-- The f-string `f"{loc.get('city', 'N/A')}, {loc.get('country', 'N/A')}"`
(source line 73), raising when `loc` is not a dict. -/
def locFmt (loc : Json) : Option Json :=
  match loc.getD "city" (Json.str "N/A") with
  | none => none
  | some city =>
  match loc.getD "country" (Json.str "N/A") with
  | none => none
  | some country =>
  some (Json.str (pyStr city ++ ", " ++ pyStr country))

/-- A Python list comprehension `[f(x) for x in items]` over an already
materialised item list: left to right, and an exception raised at any item
aborts the whole comprehension. -/
def mapOrFail (f : Json → Option Json) : List Json → Option (List Json)
  | [] => some []
  | x :: xs =>
    match f x with
    | none => none
    | some y =>
      match mapOrFail f xs with
      | none => none
      | some ys => some (y :: ys)

/-- The projector `_extract_study_data` (source lines 12–89).  The Python dict it returns
is modelled as the ordered association list of its 15 insertions; `none`
models the `except` branch returning `None` after any exception inside the
`try`. -/
def extractStudyData (study_dict : Json) : Option (List (String × Json)) :=
  match study_dict.getD "protocolSection" (Json.obj []) with
  | none => none
  | some protocol =>
  match protocol.getD "identificationModule" (Json.obj []) with
  | none => none
  | some id_module =>
  match id_module.getD "nctId" (Json.str "Not Available") with
  | none => none
  | some nct_id =>
  match id_module.getD "briefTitle" (Json.str "Not Available") with
  | none => none
  | some title =>
  match protocol.getD "statusModule" (Json.obj []) with
  | none => none
  | some status_module =>
  match status_module.getD "overallStatus" (Json.str "Not Available") with
  | none => none
  | some status =>
  match status_module.getD "startDateStruct" (Json.obj []) with
  | none => none
  | some sd_struct =>
  match sd_struct.getD "date" (Json.str "Not Available") with
  | none => none
  | some start_date =>
  match status_module.getD "completionDateStruct" (Json.obj []) with
  | none => none
  | some cd_struct =>
  match cd_struct.getD "date" (Json.str "Not Available") with
  | none => none
  | some completion_date =>
  match protocol.getD "designModule" (Json.obj []) with
  | none => none
  | some design_module =>
  match design_module.getD "phases" (Json.arr []) with
  | none => none
  | some phases =>
  match design_module.getD "studyType" (Json.str "Not Available") with
  | none => none
  | some study_type =>
  match design_module.getD "enrollmentInfo" (Json.obj []) with
  | none => none
  | some enr_info =>
  match enr_info.getD "count" Json.null with
  | none => none
  | some enrollment =>
  match protocol.getD "conditionsModule" (Json.obj []) with
  | none => none
  | some cond_module =>
  match cond_module.getD "conditions" (Json.arr []) with
  | none => none
  | some conditions =>
  match cond_module.getD "keywords" (Json.arr []) with
  | none => none
  | some keywords =>
  match protocol.getD "eligibilityModule" (Json.obj []) with
  | none => none
  | some elig_module =>
  match elig_module.getD "eligibilityCriteria" (Json.str "Not Available") with
  | none => none
  | some eligibility =>
  match protocol.getD "armsInterventionsModule" (Json.obj []) with
  | none => none
  | some interv_module =>
  match interv_module.getD "interventions" (Json.arr []) with
  | none => none
  | some interventions_list =>
  match pyIter interventions_list with
  | none => none
  | some interv_items =>
  match mapOrFail (fun interv => interv.getD "name" (Json.str "N/A")) interv_items with
  | none => none
  | some intervention_names =>
  match protocol.getD "descriptionModule" (Json.obj []) with
  | none => none
  | some desc_module =>
  match desc_module.getD "briefSummary" (Json.str "Not Available") with
  | none => none
  | some brief_summary =>
  match protocol.getD "outcomesModule" (Json.obj []) with
  | none => none
  | some outcome_module =>
  match outcome_module.getD "primaryOutcomes" (Json.arr []) with
  | none => none
  | some primary_outcomes_list =>
  match pyIter primary_outcomes_list with
  | none => none
  | some outcome_items =>
  match mapOrFail (fun outcome => outcome.getD "measure" (Json.str "N/A")) outcome_items with
  | none => none
  | some primary_outcome_measures =>
  match protocol.getD "contactsLocationsModule" (Json.obj []) with
  | none => none
  | some contact_loc_module =>
  match contact_loc_module.getD "locations" (Json.arr []) with
  | none => none
  | some locations_list =>
  match pyIter locations_list with
  | none => none
  | some loc_items =>
  match mapOrFail locFmt loc_items with
  | none => none
  | some location_info =>
  some [("NCT ID", nct_id), ("Title", title), ("Status", status),
        ("Phases", phases), ("Conditions", conditions), ("Keywords", keywords),
        ("Study Type", study_type), ("Enrollment", enrollment),
        ("Interventions", Json.arr intervention_names),
        ("Brief Summary", brief_summary),
        ("Primary Outcome Measures", Json.arr primary_outcome_measures),
        ("Eligibility Criteria", eligibility), ("Start Date", start_date),
        ("Completion Date", completion_date),
        ("Locations", Json.arr location_info)]

/-- The fixed endpoint (source line 8).  The `server` oracle below models
`requests.get(BASE_URL, params=...)` followed by `.raise_for_status()` and
`.json()`. -/
def BASE_URL : String := "https://clinicaltrials.gov/api/v2/studies"

/-- Source line 9. -/
def DEFAULT_PAGE_SIZE : Int := 100

/-- Outcome of one `fetch_all_trials` call.  `result` is `Except.error ()`
when an exception the source does not catch escapes (a decoded top-level
non-dict, or a non-iterable `studies` value); for the caught transport and
decode failures it is `Except.ok` of the partial accumulation.  `requests`
lists the parameter set of every GET issued, in order.  `callerQuery` is
the caller's dict as the call leaves it. -/
structure FetchResult where
  result : Except Unit (List (List (String × Json)))
  requests : List (List (String × Json))
  callerQuery : List (String × Json)

/-- The `while True` loop of `fetch_all_trials` (source lines 115–162).
The fuel argument counts pages still allowed by `max_pages`; at `0` the
`current_page > max_pages` guard breaks before any request. -/
def fetchGo (server : List (String × Json) → Option Json) :
    Nat → List (String × Json) → List (List (String × Json)) →
    List (List (String × Json)) →
    Except Unit (List (List (String × Json))) × List (List (String × Json))
  | 0, _, acc, reqs => (Except.ok acc, reqs)
  | n + 1, params, acc, reqs =>
    match server params with
    | none => (Except.ok acc, reqs ++ [params])
    | some data =>
      match data with
      | Json.obj fs =>
        let studiesRaw := (jlookup fs "studies").getD (Json.arr [])
        match pyIter studiesRaw with
        | none => (Except.error (), reqs ++ [params])
        | some items =>
          let acc' := acc ++ items.filterMap extractStudyData
          match jlookup fs "nextPageToken" with
          | some tok =>
            if pyTruthy tok then
              fetchGo server n (dictSet params "pageToken" tok) acc'
                (reqs ++ [params])
            else (Except.ok acc', reqs ++ [params])
          | none => (Except.ok acc', reqs ++ [params])
      | _ => (Except.error (), reqs ++ [params])

/-- The runner `fetch_all_trials` (source lines 93–165).  `query_params.copy()` means
the loop mutates only the working copy, so the caller sees its dict back
unchanged (`callerQuery`).  The 0.5-second inter-page sleep and the
progress printing are side effects with no bearing on the returned data
and are not modelled. -/
def fetchAllTrials (server : List (String × Json) → Option Json)
    (query_params : List (String × Json)) (max_pages : Nat := 10)
    (page_size : Int := DEFAULT_PAGE_SIZE) : FetchResult :=
  let local_query_params := dictSet query_params "pageSize" (Json.num page_size)
  let r := fetchGo server max_pages local_query_params [] []
  { result := r.1, requests := r.2, callerQuery := query_params }

/-- Navigation along nested section keys with the source's
section-or-empty-dict defaulting (`protocol.get(section, {})` chains). -/
def navD (j : Json) : List String → Option Json
  | [] => some j
  | k :: ks => (j.getD k (Json.obj [])).bind (fun m => navD m ks)

/-- A section-leaf pair is missing in a raw record when navigating the
section path (with the source's empty-dict defaulting) reaches a value
that does not bind the leaf key. -/
def missingAt (study : Json) (path : List String) (leaf : String) : Prop :=
  ∃ m, navD study path = some m ∧ m.hasKey leaf = false

/-- What `_extract_study_data` returns on a record with every field
missing (for instance the empty dict `{}`). -/
def emptyStudyRecord : List (String × Json) :=
  [("NCT ID", Json.str "Not Available"), ("Title", Json.str "Not Available"),
   ("Status", Json.str "Not Available"), ("Phases", Json.arr []),
   ("Conditions", Json.arr []), ("Keywords", Json.arr []),
   ("Study Type", Json.str "Not Available"), ("Enrollment", Json.null),
   ("Interventions", Json.arr []), ("Brief Summary", Json.str "Not Available"),
   ("Primary Outcome Measures", Json.arr []),
   ("Eligibility Criteria", Json.str "Not Available"),
   ("Start Date", Json.str "Not Available"),
   ("Completion Date", Json.str "Not Available"), ("Locations", Json.arr [])]

/-- The number of raw records carried by a decoded page body, when the page
is shaped well enough for the loop to iterate them. -/
def pageItems (data : Json) : Option (List Json) :=
  match data with
  | Json.obj fs => pyIter ((jlookup fs "studies").getD (Json.arr []))
  | _ => none

theorem jlookup_dictSet_self (k : String) (v : Json) :
    ∀ d : List (String × Json), jlookup (dictSet d k v) k = some v := by
  intro d
  induction d with
  | nil => simp [dictSet, jlookup]
  | cons p rest ih =>
    obtain ⟨a, b⟩ := p
    by_cases hak : a = k
    · simp [dictSet, hak, jlookup]
    · simp [dictSet, hak, jlookup, ih]

theorem jlookup_dictSet_ne (k k' : String) (v : Json) (h : k' ≠ k) :
    ∀ d : List (String × Json), jlookup (dictSet d k v) k' = jlookup d k' := by
  intro d
  induction d with
  | nil =>
    have h' : ¬k = k' := fun hh => h hh.symm
    simp [dictSet, jlookup, h']
  | cons p rest ih =>
    obtain ⟨a, b⟩ := p
    by_cases hak : a = k
    · subst hak
      have h' : ¬a = k' := fun hh => h hh.symm
      simp [dictSet, jlookup, h']
    · simp [dictSet, hak, jlookup, ih]

/-- A present leaf returned by `dict.get` with a default is the default
exactly when the key is absent. -/
theorem getD_eq_default {j : Json} {k : String} {d v : Json}
    (h : j.getD k d = some v) (hk : j.hasKey k = false) : v = d := by
  cases j <;> simp [Json.getD] at h
  rename_i fs
  simp only [Json.hasKey] at hk
  cases hfs : jlookup fs k with
  | none => rw [hfs] at h; simpa using h.symm
  | some w => rw [hfs] at hk; simp at hk

/-- Characterisation of a successful extraction: every intermediate
`dict.get` succeeded and the result is the literal 15-field record built
from the leaves. -/
theorem extract_shape {study_dict : Json} {e : List (String × Json)}
    (h : extractStudyData study_dict = some e) :
    ∃ protocol id_module nct_id title status_module status sd_struct start_date
      cd_struct completion_date design_module phases study_type enr_info
      enrollment cond_module conditions keywords elig_module eligibility
      interv_module interventions_list desc_module brief_summary outcome_module
      primary_outcomes_list contact_loc_module locations_list : Json,
    ∃ interv_items intervention_names outcome_items primary_outcome_measures
      loc_items location_info : List Json,
      study_dict.getD "protocolSection" (Json.obj []) = some protocol ∧
      protocol.getD "identificationModule" (Json.obj []) = some id_module ∧
      id_module.getD "nctId" (Json.str "Not Available") = some nct_id ∧
      id_module.getD "briefTitle" (Json.str "Not Available") = some title ∧
      protocol.getD "statusModule" (Json.obj []) = some status_module ∧
      status_module.getD "overallStatus" (Json.str "Not Available") = some status ∧
      status_module.getD "startDateStruct" (Json.obj []) = some sd_struct ∧
      sd_struct.getD "date" (Json.str "Not Available") = some start_date ∧
      status_module.getD "completionDateStruct" (Json.obj []) = some cd_struct ∧
      cd_struct.getD "date" (Json.str "Not Available") = some completion_date ∧
      protocol.getD "designModule" (Json.obj []) = some design_module ∧
      design_module.getD "phases" (Json.arr []) = some phases ∧
      design_module.getD "studyType" (Json.str "Not Available") = some study_type ∧
      design_module.getD "enrollmentInfo" (Json.obj []) = some enr_info ∧
      enr_info.getD "count" Json.null = some enrollment ∧
      protocol.getD "conditionsModule" (Json.obj []) = some cond_module ∧
      cond_module.getD "conditions" (Json.arr []) = some conditions ∧
      cond_module.getD "keywords" (Json.arr []) = some keywords ∧
      protocol.getD "eligibilityModule" (Json.obj []) = some elig_module ∧
      elig_module.getD "eligibilityCriteria" (Json.str "Not Available") = some eligibility ∧
      protocol.getD "armsInterventionsModule" (Json.obj []) = some interv_module ∧
      interv_module.getD "interventions" (Json.arr []) = some interventions_list ∧
      pyIter interventions_list = some interv_items ∧
      mapOrFail (fun interv => interv.getD "name" (Json.str "N/A")) interv_items =
        some intervention_names ∧
      protocol.getD "descriptionModule" (Json.obj []) = some desc_module ∧
      desc_module.getD "briefSummary" (Json.str "Not Available") = some brief_summary ∧
      protocol.getD "outcomesModule" (Json.obj []) = some outcome_module ∧
      outcome_module.getD "primaryOutcomes" (Json.arr []) = some primary_outcomes_list ∧
      pyIter primary_outcomes_list = some outcome_items ∧
      mapOrFail (fun outcome => outcome.getD "measure" (Json.str "N/A")) outcome_items =
        some primary_outcome_measures ∧
      protocol.getD "contactsLocationsModule" (Json.obj []) = some contact_loc_module ∧
      contact_loc_module.getD "locations" (Json.arr []) = some locations_list ∧
      pyIter locations_list = some loc_items ∧
      mapOrFail locFmt loc_items = some location_info ∧
      e = [("NCT ID", nct_id), ("Title", title), ("Status", status),
        ("Phases", phases), ("Conditions", conditions), ("Keywords", keywords),
        ("Study Type", study_type), ("Enrollment", enrollment),
        ("Interventions", Json.arr intervention_names),
        ("Brief Summary", brief_summary),
        ("Primary Outcome Measures", Json.arr primary_outcome_measures),
        ("Eligibility Criteria", eligibility), ("Start Date", start_date),
        ("Completion Date", completion_date),
        ("Locations", Json.arr location_info)] := by
  unfold extractStudyData at h
  split at h
  · exact Option.noConfusion h
  split at h
  · exact Option.noConfusion h
  split at h
  · exact Option.noConfusion h
  split at h
  · exact Option.noConfusion h
  split at h
  · exact Option.noConfusion h
  split at h
  · exact Option.noConfusion h
  split at h
  · exact Option.noConfusion h
  split at h
  · exact Option.noConfusion h
  split at h
  · exact Option.noConfusion h
  split at h
  · exact Option.noConfusion h
  split at h
  · exact Option.noConfusion h
  split at h
  · exact Option.noConfusion h
  split at h
  · exact Option.noConfusion h
  split at h
  · exact Option.noConfusion h
  split at h
  · exact Option.noConfusion h
  split at h
  · exact Option.noConfusion h
  split at h
  · exact Option.noConfusion h
  split at h
  · exact Option.noConfusion h
  split at h
  · exact Option.noConfusion h
  split at h
  · exact Option.noConfusion h
  split at h
  · exact Option.noConfusion h
  split at h
  · exact Option.noConfusion h
  split at h
  · exact Option.noConfusion h
  split at h
  · exact Option.noConfusion h
  split at h
  · exact Option.noConfusion h
  split at h
  · exact Option.noConfusion h
  split at h
  · exact Option.noConfusion h
  split at h
  · exact Option.noConfusion h
  split at h
  · exact Option.noConfusion h
  split at h
  · exact Option.noConfusion h
  split at h
  · exact Option.noConfusion h
  split at h
  · exact Option.noConfusion h
  split at h
  · exact Option.noConfusion h
  split at h
  · exact Option.noConfusion h
  rename_i x1 protocol h1 x2 id_module h2 x3 nct_id h3 x4 title h4 x5 status_module h5 x6 status h6 x7 sd_struct h7 x8 start_date h8 x9 cd_struct h9 x10 completion_date h10 x11 design_module h11 x12 phases h12 x13 study_type h13 x14 enr_info h14 x15 enrollment h15 x16 cond_module h16 x17 conditions h17
    x18 keywords h18 x19 elig_module h19 x20 eligibility h20 x21 interv_module h21 x22 interventions_list h22 x23 interv_items h23 x24 intervention_names h24 x25 desc_module h25 x26 brief_summary h26 x27 outcome_module h27 x28 primary_outcomes_list h28 x29 outcome_items h29 x30 primary_outcome_measures h30 x31 contact_loc_module h31 x32 locations_list h32 x33 loc_items h33 x34 location_info h34
  exact ⟨protocol, id_module, nct_id, title, status_module, status, sd_struct, start_date, cd_struct, completion_date, design_module, phases, study_type, enr_info, enrollment, cond_module, conditions, keywords, elig_module, eligibility, interv_module, interventions_list, desc_module, brief_summary, outcome_module, primary_outcomes_list, contact_loc_module, locations_list, interv_items, intervention_names, outcome_items, primary_outcome_measures, loc_items, location_info,
    h1, h2, h3, h4, h5, h6, h7, h8, h9, h10, h11, h12, h13, h14, h15, h16, h17, h18, h19, h20, h21, h22, h23, h24, h25, h26, h27, h28, h29, h30, h31, h32, h33, h34, (Option.some.inj h).symm⟩

/-- C9: for every raw record on which extraction succeeds, the returned
flat mapping has exactly the fixed 15 keys, in the fixed order, regardless
of the shape of the input record. -/
theorem c9_fixed_field_set (study_dict : Json) (e : List (String × Json))
    (h : extractStudyData study_dict = some e) :
    e.map Prod.fst =
      ["NCT ID", "Title", "Status", "Phases", "Conditions", "Keywords",
       "Study Type", "Enrollment", "Interventions", "Brief Summary",
       "Primary Outcome Measures", "Eligibility Criteria", "Start Date",
       "Completion Date", "Locations"] := by
  obtain ⟨p, im, nct, ttl, sm, st, sds, sdt, cds, cdt, dm, ph, sty, ei, en, cm, cnd,
    kw, em, el, ivm, ivl, dsm, bs, om, pol, clm, ll, ivi, ivn, oi, pom, li, lif,
    h1, h2, h3, h4, h5, h6, h7, h8, h9, h10, h11, h12, h13, h14, h15, h16, h17, h18,
    h19, h20, h21, h22, h23, h24, h25, h26, h27, h28, h29, h30, h31, h32, h33, h34,
    he⟩ := extract_shape h
  subst he
  rfl

/-- C9 witness: the empty record extracts successfully and carries exactly
the 15 fixed keys. -/
theorem c9_witness :
    emptyStudyRecord.map Prod.fst =
      ["NCT ID", "Title", "Status", "Phases", "Conditions", "Keywords",
       "Study Type", "Enrollment", "Interventions", "Brief Summary",
       "Primary Outcome Measures", "Eligibility Criteria", "Start Date",
       "Completion Date", "Locations"] :=
  c9_fixed_field_set (Json.obj []) emptyStudyRecord rfl

/-- C7: on every successful extraction, a missing string leaf yields the
literal "Not Available", a missing list field yields an empty sequence
rather than a failure, and a missing enrollment count yields the null
value, which is distinct from zero. -/
theorem c7_missing_field_defaults (study_dict : Json) (e : List (String × Json))
    (h : extractStudyData study_dict = some e) :
    (missingAt study_dict ["protocolSection", "identificationModule"] "nctId" →
      jlookup e "NCT ID" = some (Json.str "Not Available")) ∧
    (missingAt study_dict ["protocolSection", "identificationModule"] "briefTitle" →
      jlookup e "Title" = some (Json.str "Not Available")) ∧
    (missingAt study_dict ["protocolSection", "statusModule"] "overallStatus" →
      jlookup e "Status" = some (Json.str "Not Available")) ∧
    (missingAt study_dict ["protocolSection", "designModule"] "studyType" →
      jlookup e "Study Type" = some (Json.str "Not Available")) ∧
    (missingAt study_dict ["protocolSection", "descriptionModule"] "briefSummary" →
      jlookup e "Brief Summary" = some (Json.str "Not Available")) ∧
    (missingAt study_dict ["protocolSection", "eligibilityModule"] "eligibilityCriteria" →
      jlookup e "Eligibility Criteria" = some (Json.str "Not Available")) ∧
    (missingAt study_dict ["protocolSection", "statusModule", "startDateStruct"] "date" →
      jlookup e "Start Date" = some (Json.str "Not Available")) ∧
    (missingAt study_dict ["protocolSection", "statusModule", "completionDateStruct"]
        "date" →
      jlookup e "Completion Date" = some (Json.str "Not Available")) ∧
    (missingAt study_dict ["protocolSection", "designModule"] "phases" →
      jlookup e "Phases" = some (Json.arr [])) ∧
    (missingAt study_dict ["protocolSection", "conditionsModule"] "conditions" →
      jlookup e "Conditions" = some (Json.arr [])) ∧
    (missingAt study_dict ["protocolSection", "conditionsModule"] "keywords" →
      jlookup e "Keywords" = some (Json.arr [])) ∧
    (missingAt study_dict ["protocolSection", "armsInterventionsModule"] "interventions" →
      jlookup e "Interventions" = some (Json.arr [])) ∧
    (missingAt study_dict ["protocolSection", "outcomesModule"] "primaryOutcomes" →
      jlookup e "Primary Outcome Measures" = some (Json.arr [])) ∧
    (missingAt study_dict ["protocolSection", "contactsLocationsModule"] "locations" →
      jlookup e "Locations" = some (Json.arr [])) ∧
    (missingAt study_dict ["protocolSection", "designModule", "enrollmentInfo"] "count" →
      jlookup e "Enrollment" = some Json.null ∧ Json.null ≠ Json.num 0) := by
  obtain ⟨p, im, nct, ttl, sm, st, sds, sdt, cds, cdt, dm, ph, sty, ei, en, cm, cnd,
    kw, em, el, ivm, ivl, dsm, bs, om, pol, clm, ll, ivi, ivn, oi, pom, li, lif,
    h1, h2, h3, h4, h5, h6, h7, h8, h9, h10, h11, h12, h13, h14, h15, h16, h17, h18,
    h19, h20, h21, h22, h23, h24, h25, h26, h27, h28, h29, h30, h31, h32, h33, h34,
    he⟩ := extract_shape h
  subst he
  refine ⟨?_, ?_, ?_, ?_, ?_, ?_, ?_, ?_, ?_, ?_, ?_, ?_, ?_, ?_, ?_⟩
  · rintro ⟨m, hm, hk⟩
    rw [show navD study_dict ["protocolSection", "identificationModule"] = some im by
      simp [navD, h1, h2]] at hm
    obtain rfl := Option.some.inj hm
    obtain rfl := getD_eq_default h3 hk
    rfl
  · rintro ⟨m, hm, hk⟩
    rw [show navD study_dict ["protocolSection", "identificationModule"] = some im by
      simp [navD, h1, h2]] at hm
    obtain rfl := Option.some.inj hm
    obtain rfl := getD_eq_default h4 hk
    rfl
  · rintro ⟨m, hm, hk⟩
    rw [show navD study_dict ["protocolSection", "statusModule"] = some sm by
      simp [navD, h1, h5]] at hm
    obtain rfl := Option.some.inj hm
    obtain rfl := getD_eq_default h6 hk
    rfl
  · rintro ⟨m, hm, hk⟩
    rw [show navD study_dict ["protocolSection", "designModule"] = some dm by
      simp [navD, h1, h11]] at hm
    obtain rfl := Option.some.inj hm
    obtain rfl := getD_eq_default h13 hk
    rfl
  · rintro ⟨m, hm, hk⟩
    rw [show navD study_dict ["protocolSection", "descriptionModule"] = some dsm by
      simp [navD, h1, h25]] at hm
    obtain rfl := Option.some.inj hm
    obtain rfl := getD_eq_default h26 hk
    rfl
  · rintro ⟨m, hm, hk⟩
    rw [show navD study_dict ["protocolSection", "eligibilityModule"] = some em by
      simp [navD, h1, h19]] at hm
    obtain rfl := Option.some.inj hm
    obtain rfl := getD_eq_default h20 hk
    rfl
  · rintro ⟨m, hm, hk⟩
    rw [show navD study_dict ["protocolSection", "statusModule", "startDateStruct"] =
        some sds by simp [navD, h1, h5, h7]] at hm
    obtain rfl := Option.some.inj hm
    obtain rfl := getD_eq_default h8 hk
    rfl
  · rintro ⟨m, hm, hk⟩
    rw [show navD study_dict ["protocolSection", "statusModule", "completionDateStruct"] =
        some cds by simp [navD, h1, h5, h9]] at hm
    obtain rfl := Option.some.inj hm
    obtain rfl := getD_eq_default h10 hk
    rfl
  · rintro ⟨m, hm, hk⟩
    rw [show navD study_dict ["protocolSection", "designModule"] = some dm by
      simp [navD, h1, h11]] at hm
    obtain rfl := Option.some.inj hm
    obtain rfl := getD_eq_default h12 hk
    rfl
  · rintro ⟨m, hm, hk⟩
    rw [show navD study_dict ["protocolSection", "conditionsModule"] = some cm by
      simp [navD, h1, h16]] at hm
    obtain rfl := Option.some.inj hm
    obtain rfl := getD_eq_default h17 hk
    rfl
  · rintro ⟨m, hm, hk⟩
    rw [show navD study_dict ["protocolSection", "conditionsModule"] = some cm by
      simp [navD, h1, h16]] at hm
    obtain rfl := Option.some.inj hm
    obtain rfl := getD_eq_default h18 hk
    rfl
  · rintro ⟨m, hm, hk⟩
    rw [show navD study_dict ["protocolSection", "armsInterventionsModule"] = some ivm by
      simp [navD, h1, h21]] at hm
    obtain rfl := Option.some.inj hm
    obtain rfl := getD_eq_default h22 hk
    simp only [pyIter] at h23
    obtain rfl := Option.some.inj h23
    simp only [mapOrFail] at h24
    obtain rfl := Option.some.inj h24
    rfl
  · rintro ⟨m, hm, hk⟩
    rw [show navD study_dict ["protocolSection", "outcomesModule"] = some om by
      simp [navD, h1, h27]] at hm
    obtain rfl := Option.some.inj hm
    obtain rfl := getD_eq_default h28 hk
    simp only [pyIter] at h29
    obtain rfl := Option.some.inj h29
    simp only [mapOrFail] at h30
    obtain rfl := Option.some.inj h30
    rfl
  · rintro ⟨m, hm, hk⟩
    rw [show navD study_dict ["protocolSection", "contactsLocationsModule"] = some clm by
      simp [navD, h1, h31]] at hm
    obtain rfl := Option.some.inj hm
    obtain rfl := getD_eq_default h32 hk
    simp only [pyIter] at h33
    obtain rfl := Option.some.inj h33
    simp only [mapOrFail] at h34
    obtain rfl := Option.some.inj h34
    rfl
  · rintro ⟨m, hm, hk⟩
    rw [show navD study_dict ["protocolSection", "designModule", "enrollmentInfo"] =
        some ei by simp [navD, h1, h11, h14]] at hm
    obtain rfl := Option.some.inj hm
    obtain rfl := getD_eq_default h15 hk
    exact ⟨rfl, fun hh => Json.noConfusion hh⟩

/-- C7 witness: on the empty record every field is missing, and the
extracted record carries all the documented defaults. -/
theorem c7_witness :
    jlookup emptyStudyRecord "NCT ID" = some (Json.str "Not Available") ∧
    jlookup emptyStudyRecord "Title" = some (Json.str "Not Available") ∧
    jlookup emptyStudyRecord "Status" = some (Json.str "Not Available") ∧
    jlookup emptyStudyRecord "Study Type" = some (Json.str "Not Available") ∧
    jlookup emptyStudyRecord "Brief Summary" = some (Json.str "Not Available") ∧
    jlookup emptyStudyRecord "Eligibility Criteria" = some (Json.str "Not Available") ∧
    jlookup emptyStudyRecord "Start Date" = some (Json.str "Not Available") ∧
    jlookup emptyStudyRecord "Completion Date" = some (Json.str "Not Available") ∧
    jlookup emptyStudyRecord "Phases" = some (Json.arr []) ∧
    jlookup emptyStudyRecord "Conditions" = some (Json.arr []) ∧
    jlookup emptyStudyRecord "Keywords" = some (Json.arr []) ∧
    jlookup emptyStudyRecord "Interventions" = some (Json.arr []) ∧
    jlookup emptyStudyRecord "Primary Outcome Measures" = some (Json.arr []) ∧
    jlookup emptyStudyRecord "Locations" = some (Json.arr []) ∧
    (jlookup emptyStudyRecord "Enrollment" = some Json.null ∧
      Json.null ≠ Json.num 0) := by
  obtain ⟨c1, c2, c3, c4, c5, c6, c7, c8, c9, c10, c11, c12, c13, c14, c15⟩ :=
    c7_missing_field_defaults (Json.obj []) emptyStudyRecord rfl
  exact ⟨c1 ⟨Json.obj [], rfl, rfl⟩, c2 ⟨Json.obj [], rfl, rfl⟩,
    c3 ⟨Json.obj [], rfl, rfl⟩, c4 ⟨Json.obj [], rfl, rfl⟩,
    c5 ⟨Json.obj [], rfl, rfl⟩, c6 ⟨Json.obj [], rfl, rfl⟩,
    c7 ⟨Json.obj [], rfl, rfl⟩, c8 ⟨Json.obj [], rfl, rfl⟩,
    c9 ⟨Json.obj [], rfl, rfl⟩, c10 ⟨Json.obj [], rfl, rfl⟩,
    c11 ⟨Json.obj [], rfl, rfl⟩, c12 ⟨Json.obj [], rfl, rfl⟩,
    c13 ⟨Json.obj [], rfl, rfl⟩, c14 ⟨Json.obj [], rfl, rfl⟩,
    c15 ⟨Json.obj [], rfl, rfl⟩⟩

/-- C8: on every successful extraction the interventions field is the
ordered per-entry sequence of intervention names (each individually missing
name replaced by "N/A"), the primary outcome measures field is the ordered
per-entry sequence of measures (missing measure replaced by "N/A"), and the
locations field is the ordered sequence of "city, country" strings with
"N/A" substituted for either missing part; "N/A" is distinct from
"Not Available". -/
theorem c8_derived_sequences (study_dict : Json) (e : List (String × Json))
    (h : extractStudyData study_dict = some e) :
    (∃ ivm ivl items names,
      navD study_dict ["protocolSection", "armsInterventionsModule"] = some ivm ∧
      ivm.getD "interventions" (Json.arr []) = some ivl ∧
      pyIter ivl = some items ∧
      mapOrFail (fun interv => interv.getD "name" (Json.str "N/A")) items = some names ∧
      jlookup e "Interventions" = some (Json.arr names)) ∧
    (∃ om pol items measures,
      navD study_dict ["protocolSection", "outcomesModule"] = some om ∧
      om.getD "primaryOutcomes" (Json.arr []) = some pol ∧
      pyIter pol = some items ∧
      mapOrFail (fun outcome => outcome.getD "measure" (Json.str "N/A")) items =
        some measures ∧
      jlookup e "Primary Outcome Measures" = some (Json.arr measures)) ∧
    (∃ clm ll items locs,
      navD study_dict ["protocolSection", "contactsLocationsModule"] = some clm ∧
      clm.getD "locations" (Json.arr []) = some ll ∧
      pyIter ll = some items ∧
      mapOrFail locFmt items = some locs ∧
      jlookup e "Locations" = some (Json.arr locs)) ∧
    (∀ fs, (Json.obj fs).hasKey "name" = false →
      (Json.obj fs).getD "name" (Json.str "N/A") = some (Json.str "N/A")) ∧
    (∀ fs, (Json.obj fs).hasKey "measure" = false →
      (Json.obj fs).getD "measure" (Json.str "N/A") = some (Json.str "N/A")) ∧
    (∀ fs, locFmt (Json.obj fs) =
      some (Json.str (pyStr ((jlookup fs "city").getD (Json.str "N/A")) ++ ", " ++
        pyStr ((jlookup fs "country").getD (Json.str "N/A"))))) ∧
    (∀ fs, (Json.obj fs).hasKey "city" = false →
      (Json.obj fs).hasKey "country" = false →
      locFmt (Json.obj fs) = some (Json.str "N/A, N/A")) ∧
    Json.str "N/A" ≠ Json.str "Not Available" := by
  obtain ⟨p, im, nct, ttl, sm, st, sds, sdt, cds, cdt, dm, ph, sty, ei, en, cm, cnd,
    kw, em, el, ivm, ivl, dsm, bs, om, pol, clm, ll, ivi, ivn, oi, pom, li, lif,
    h1, h2, h3, h4, h5, h6, h7, h8, h9, h10, h11, h12, h13, h14, h15, h16, h17, h18,
    h19, h20, h21, h22, h23, h24, h25, h26, h27, h28, h29, h30, h31, h32, h33, h34,
    he⟩ := extract_shape h
  subst he
  refine ⟨⟨ivm, ivl, ivi, ivn, ?_, h22, h23, h24, rfl⟩,
    ⟨om, pol, oi, pom, ?_, h28, h29, h30, rfl⟩,
    ⟨clm, ll, li, lif, ?_, h32, h33, h34, rfl⟩, ?_, ?_, ?_, ?_, ?_⟩
  · simp [navD, h1, h21]
  · simp [navD, h1, h27]
  · simp [navD, h1, h31]
  · intro fs hk
    simp only [Json.hasKey] at hk
    cases hfs : jlookup fs "name" with
    | none => simp [Json.getD, hfs]
    | some w => rw [hfs] at hk; simp at hk
  · intro fs hk
    simp only [Json.hasKey] at hk
    cases hfs : jlookup fs "measure" with
    | none => simp [Json.getD, hfs]
    | some w => rw [hfs] at hk; simp at hk
  · intro fs
    rfl
  · intro fs hc hco
    simp only [Json.hasKey] at hc hco
    cases hfs : jlookup fs "city" with
    | some w => rw [hfs] at hc; simp at hc
    | none =>
      cases hfs2 : jlookup fs "country" with
      | some w => rw [hfs2] at hco; simp at hco
      | none => simp [locFmt, Json.getD, hfs, hfs2, pyStr]
  · intro hh
    have := Json.str.inj hh
    exact absurd this (by decide)

/-- A study with one named and one unnamed intervention, one measure-less
primary outcome, and two partial locations. -/
def sampleDerivedStudy : Json :=
  Json.obj [("protocolSection", Json.obj
    [("armsInterventionsModule", Json.obj
        [("interventions", Json.arr
          [Json.obj [("name", Json.str "Aspirin")], Json.obj []])]),
     ("outcomesModule", Json.obj [("primaryOutcomes", Json.arr [Json.obj []])]),
     ("contactsLocationsModule", Json.obj
        [("locations", Json.arr
          [Json.obj [("city", Json.str "Boston")],
           Json.obj [("country", Json.str "France")]])])])]

/-- The extraction of `sampleDerivedStudy`. -/
def sampleDerivedRecord : List (String × Json) :=
  [("NCT ID", Json.str "Not Available"), ("Title", Json.str "Not Available"),
   ("Status", Json.str "Not Available"), ("Phases", Json.arr []),
   ("Conditions", Json.arr []), ("Keywords", Json.arr []),
   ("Study Type", Json.str "Not Available"), ("Enrollment", Json.null),
   ("Interventions", Json.arr [Json.str "Aspirin", Json.str "N/A"]),
   ("Brief Summary", Json.str "Not Available"),
   ("Primary Outcome Measures", Json.arr [Json.str "N/A"]),
   ("Eligibility Criteria", Json.str "Not Available"),
   ("Start Date", Json.str "Not Available"),
   ("Completion Date", Json.str "Not Available"),
   ("Locations", Json.arr [Json.str "Boston, N/A", Json.str "N/A, France"])]

/-- C8 witness: per-entry "N/A" substitution and the "city, country"
format, on a concrete record. -/
theorem c8_witness :
    extractStudyData sampleDerivedStudy = some sampleDerivedRecord ∧
    jlookup sampleDerivedRecord "Interventions" =
      some (Json.arr [Json.str "Aspirin", Json.str "N/A"]) ∧
    jlookup sampleDerivedRecord "Locations" =
      some (Json.arr [Json.str "Boston, N/A", Json.str "N/A, France"]) ∧
    jlookup sampleDerivedRecord "Primary Outcome Measures" =
      some (Json.arr [Json.str "N/A"]) ∧
    locFmt (Json.obj []) = some (Json.str "N/A, N/A") := by
  obtain ⟨⟨ivm, ivl, items, names, hnav, hgi, hpy, hmap, hlook⟩,
    ⟨om, pol, oitems, measures, honav, hog, hopy, homap, holook⟩,
    ⟨clm, ll, litems, locs, hlnav, hlg, hlpy, hlmap, hllook⟩,
    _, _, _, hmiss, _⟩ :=
    c8_derived_sequences sampleDerivedStudy sampleDerivedRecord rfl
  obtain rfl := Option.some.inj hnav
  obtain rfl := Option.some.inj hgi
  obtain rfl := Option.some.inj hpy
  obtain rfl := Option.some.inj hmap
  obtain rfl := Option.some.inj honav
  obtain rfl := Option.some.inj hog
  obtain rfl := Option.some.inj hopy
  obtain rfl := Option.some.inj homap
  obtain rfl := Option.some.inj hlnav
  obtain rfl := Option.some.inj hlg
  obtain rfl := Option.some.inj hlpy
  obtain rfl := Option.some.inj hlmap
  exact ⟨rfl, hlook, hllook, holook, hmiss [] rfl rfl⟩

/-- C2 counterexample: a record whose `protocolSection` is absent does NOT
make extraction fail — `study_dict.get('protocolSection', {})` substitutes
an empty dict and extraction succeeds with all defaults. -/
theorem c2_counterexample :
    (Json.obj []).hasKey "protocolSection" = false ∧
    extractStudyData (Json.obj []) = some emptyStudyRecord ∧
    extractStudyData (Json.obj []) ≠ none :=
  ⟨rfl, rfl, fun hh => Option.noConfusion hh⟩

/-- C2 amended: extraction signals failure (returns `None`) for a record
that is not a mapping, or whose `protocolSection` is present but not a
mapping (navigation then raises); such a failure is confined to that
record — the other records of the page are still processed — while a
merely absent `protocolSection` yields the all-defaults record. -/
theorem c2_amended_navigation_failure :
    (∀ fs v, jlookup fs "protocolSection" = some v →
      (∀ gs, v ≠ Json.obj gs) → extractStudyData (Json.obj fs) = none) ∧
    (∀ study_dict, (∀ fs, study_dict ≠ Json.obj fs) →
      extractStudyData study_dict = none) ∧
    (∀ pre post bad, extractStudyData bad = none →
      (pre ++ bad :: post).filterMap extractStudyData =
        pre.filterMap extractStudyData ++ post.filterMap extractStudyData) ∧
    (∀ fs, jlookup fs "protocolSection" = none →
      extractStudyData (Json.obj fs) = some emptyStudyRecord) := by
  refine ⟨?_, ?_, ?_, ?_⟩
  · intro fs v hv hvo
    cases v <;> first
      | exact absurd rfl (hvo _)
      | simp [extractStudyData, Json.getD, hv]
  · intro study_dict hobj
    cases study_dict <;> first
      | exact absurd rfl (hobj _)
      | simp [extractStudyData, Json.getD]
  · intro pre post bad hbad
    simp [List.filterMap_append, List.filterMap_cons, hbad]
  · intro fs hnone
    unfold extractStudyData
    rw [show (Json.obj fs).getD "protocolSection" (Json.obj []) = some (Json.obj [])
      from by simp [Json.getD, hnone]]
    rfl

/-- C2 witness: a string-valued `protocolSection` fails extraction, a bare
string record fails extraction, the failing record is dropped while its
page siblings are kept, and an absent `protocolSection` succeeds. -/
theorem c2_witness :
    extractStudyData (Json.obj [("protocolSection", Json.str "oops")]) = none ∧
    extractStudyData (Json.str "bare") = none ∧
    [Json.obj [], Json.obj [("protocolSection", Json.str "oops")],
        Json.obj []].filterMap extractStudyData =
      [emptyStudyRecord, emptyStudyRecord] ∧
    extractStudyData (Json.obj []) = some emptyStudyRecord := by
  have hc := c2_amended_navigation_failure
  refine ⟨hc.1 [("protocolSection", Json.str "oops")] (Json.str "oops") rfl
      (fun gs hh => Json.noConfusion hh),
    hc.2.1 (Json.str "bare") (fun fs hh => Json.noConfusion hh), ?_,
    hc.2.2.2 [] rfl⟩
  have h3 := hc.2.2.1 [Json.obj []] [Json.obj []]
    (Json.obj [("protocolSection", Json.str "oops")])
    (hc.1 _ _ rfl (fun gs hh => Json.noConfusion hh))
  simpa using h3

/-- C1: a transport or decode failure (the `server` oracle returning
`none`) stops the pagination loop at that request and the call returns the
records accumulated from the prior successful pages — the empty list when
the failure hits the first page — as a normal value, never an exception,
for these failure categories. -/
theorem c1_transport_failure_nonthrowing :
    (∀ (server : List (String × Json) → Option Json) params acc reqs n,
      server params = none →
      fetchGo server (n + 1) params acc reqs = (Except.ok acc, reqs ++ [params])) ∧
    (∀ (server : List (String × Json) → Option Json) query_params max_pages
        (page_size : Int),
      1 ≤ max_pages →
      server (dictSet query_params "pageSize" (Json.num page_size)) = none →
      (fetchAllTrials server query_params max_pages page_size).result =
        Except.ok [] ∧
      (fetchAllTrials server query_params max_pages page_size).requests =
        [dictSet query_params "pageSize" (Json.num page_size)]) := by
  constructor
  · intro server params acc reqs n h
    simp [fetchGo, h]
  · intro server qp mp ps hmp h
    obtain ⟨k, rfl⟩ := Nat.exists_eq_add_of_le hmp
    rw [show 1 + k = k + 1 from Nat.add_comm 1 k]
    constructor <;> simp [fetchAllTrials, fetchGo, h]

/-- C1 witness: a first-page failure on a concrete run returns the empty
list after exactly one request. -/
theorem c1_witness :
    fetchGo (fun _ => none) 1 [("pageSize", Json.num 5)] [] [] =
      (Except.ok [], [[("pageSize", Json.num 5)]]) ∧
    (fetchAllTrials (fun _ => none) [("query.cond", Json.str "diabetes")] 10
        100).result = Except.ok [] ∧
    (fetchAllTrials (fun _ => none) [("query.cond", Json.str "diabetes")] 10
        100).requests =
      [dictSet [("query.cond", Json.str "diabetes")] "pageSize" (Json.num 100)] :=
  ⟨c1_transport_failure_nonthrowing.1 (fun _ => none) _ [] [] 0 rfl,
   (c1_transport_failure_nonthrowing.2 (fun _ => none) _ 10 100 (by decide) rfl).1,
   (c1_transport_failure_nonthrowing.2 (fun _ => none) _ 10 100 (by decide) rfl).2⟩

/-- C10: a page whose studies list is empty (or whose studies key is
absent) while a truthy continuation token is present does not terminate
the loop: that iteration contributes no records, issues its request, and
the loop proceeds to the next page with the token installed. -/
theorem c10_empty_page_continues :
    ∀ (server : List (String × Json) → Option Json) n params acc reqs fs tok,
      server params = some (Json.obj fs) →
      (jlookup fs "studies" = none ∨ jlookup fs "studies" = some (Json.arr [])) →
      jlookup fs "nextPageToken" = some tok →
      pyTruthy tok = true →
      fetchGo server (n + 1) params acc reqs =
        fetchGo server n (dictSet params "pageToken" tok) acc (reqs ++ [params]) := by
  intro server n params acc reqs fs tok hs hstud htok htr
  rcases hstud with hstud | hstud <;>
    simp [fetchGo, hs, hstud, htok, htr, pyIter]

/-- A canned server: an empty first page carrying a continuation token,
then a page with one (empty) study and no token. -/
def emptyPageServer : List (String × Json) → Option Json := fun params =>
  match jlookup params "pageToken" with
  | none => some (Json.obj [("studies", Json.arr []), ("nextPageToken", Json.str "t")])
  | some _ => some (Json.obj [("studies", Json.arr [Json.obj []])])

/-- C10 witness: on the canned server the empty first page does not stop
the run, which goes on to collect the second page's record. -/
theorem c10_witness :
    fetchGo emptyPageServer 2 [("pageSize", Json.num 2)] [] [] =
      fetchGo emptyPageServer 1
        (dictSet [("pageSize", Json.num 2)] "pageToken" (Json.str "t")) []
        [[("pageSize", Json.num 2)]] ∧
    (fetchAllTrials emptyPageServer [] 10 2).result =
      Except.ok [emptyStudyRecord] ∧
    (fetchAllTrials emptyPageServer [] 10 2).requests.length = 2 :=
  ⟨c10_empty_page_continues emptyPageServer 1 _ [] [] _ (Json.str "t") rfl
      (Or.inr rfl) rfl rfl,
   rfl, rfl⟩

/-- C3: against canned pages whose continuation tokens chain
p1 → p2 → p3 → (none), a run with `max_pages ≥ 3` issues exactly 3
requests and returns the concatenation, in page order, of the successful
extractions of pages 1, 2 and 3 (each page in its own record order). -/
theorem c3_three_page_concatenation :
    ∀ (server : List (String × Json) → Option Json) (qp : List (String × Json))
      (s1 s2 s3 : List Json) (t1 t2 : String) (mp : Nat) (ps : Int),
      t1 ≠ "" → t2 ≠ "" →
      server (dictSet qp "pageSize" (Json.num ps)) =
        some (Json.obj [("studies", Json.arr s1), ("nextPageToken", Json.str t1)]) →
      server (dictSet (dictSet qp "pageSize" (Json.num ps)) "pageToken"
          (Json.str t1)) =
        some (Json.obj [("studies", Json.arr s2), ("nextPageToken", Json.str t2)]) →
      server (dictSet (dictSet (dictSet qp "pageSize" (Json.num ps)) "pageToken"
          (Json.str t1)) "pageToken" (Json.str t2)) =
        some (Json.obj [("studies", Json.arr s3)]) →
      3 ≤ mp →
      (fetchAllTrials server qp mp ps).requests.length = 3 ∧
      (fetchAllTrials server qp mp ps).result =
        Except.ok (s1.filterMap extractStudyData ++ s2.filterMap extractStudyData ++
          s3.filterMap extractStudyData) := by
  intro server qp s1 s2 s3 t1 t2 mp ps ht1 ht2 hp1 hp2 hp3 hmp
  obtain ⟨k, rfl⟩ := Nat.exists_eq_add_of_le hmp
  rw [show 3 + k = k + 1 + 1 + 1 from by omega]
  constructor <;>
    simp [fetchAllTrials, fetchGo, hp1, hp2, hp3, jlookup, pyIter, pyTruthy, ht1, ht2]

/-- A canned three-page server chained by tokens p2 then p3. -/
def chainedServer : List (String × Json) → Option Json := fun params =>
  match jlookup params "pageToken" with
  | none =>
    some (Json.obj [("studies", Json.arr [Json.obj []]),
      ("nextPageToken", Json.str "p2")])
  | some (Json.str "p2") =>
    some (Json.obj [("studies", Json.arr []), ("nextPageToken", Json.str "p3")])
  | some (Json.str "p3") =>
    some (Json.obj [("studies", Json.arr [Json.obj []])])
  | some _ => none

/-- C3 witness: the canned three-page chain is walked with exactly three
requests and the per-page extractions are concatenated in order. -/
theorem c3_witness :
    (fetchAllTrials chainedServer [] 5 1).requests.length = 3 ∧
    (fetchAllTrials chainedServer [] 5 1).result =
      Except.ok ([Json.obj []].filterMap extractStudyData ++
        ([] : List Json).filterMap extractStudyData ++
        [Json.obj []].filterMap extractStudyData) := by
  have hc := c3_three_page_concatenation chainedServer [] [Json.obj []] []
    [Json.obj []] "p2" "p3" 5 1 (by decide) (by decide) rfl rfl rfl (by decide)
  exact ⟨hc.1, hc.2⟩

/-- C4: with `max_pages = 1` and a first page that carries a continuation
token, the run issues exactly one request and stops, returning only the
first page's extracted records. -/
theorem c4_page_limit_stops :
    ∀ (server : List (String × Json) → Option Json) (qp : List (String × Json))
      (ps : Int) (fs : List (String × Json)) (tok : Json) (s1 : List Json),
      server (dictSet qp "pageSize" (Json.num ps)) = some (Json.obj fs) →
      jlookup fs "studies" = some (Json.arr s1) →
      jlookup fs "nextPageToken" = some tok →
      (fetchAllTrials server qp 1 ps).requests =
        [dictSet qp "pageSize" (Json.num ps)] ∧
      (fetchAllTrials server qp 1 ps).result =
        Except.ok (s1.filterMap extractStudyData) := by
  intro server qp ps fs tok s1 h1 h2 h3
  constructor <;> simp [fetchAllTrials, fetchGo, h1, h2, h3, pyIter]

/-- C4 witness: on the canned chained server with `max_pages = 1`, one
request is issued and only page 1 is returned despite the token. -/
theorem c4_witness :
    (fetchAllTrials chainedServer [] 1 1).requests =
      [dictSet [] "pageSize" (Json.num 1)] ∧
    (fetchAllTrials chainedServer [] 1 1).result =
      Except.ok ([Json.obj []].filterMap extractStudyData) :=
  c4_page_limit_stops chainedServer [] 1
    [("studies", Json.arr [Json.obj []]), ("nextPageToken", Json.str "p2")]
    (Json.str "p2") [Json.obj []] rfl rfl rfl

/-- Loop invariant for C5: assuming every served page carries at most
`ps` records, each iteration adds at most `ps` records and one request. -/
theorem fetchGo_length_le (server : List (String × Json) → Option Json) (ps : Int)
    (hserver : ∀ params data items, server params = some data →
      pageItems data = some items → (items.length : Int) ≤ ps)
    (hps : 0 ≤ ps) :
    ∀ (n : Nat) params acc reqs l reqs',
      fetchGo server n params acc reqs = (Except.ok l, reqs') →
      (l.length : Int) + (reqs.length : Int) * ps ≤
        (acc.length : Int) + (reqs'.length : Int) * ps := by
  intro n
  induction n with
  | zero =>
    intro params acc reqs l reqs' h
    simp only [fetchGo, Prod.mk.injEq, Except.ok.injEq] at h
    obtain ⟨rfl, rfl⟩ := h
    exact le_refl _
  | succ n ih =>
    intro params acc reqs l reqs' h
    rcases hsv : server params with _ | data
    · simp only [fetchGo, hsv, Prod.mk.injEq, Except.ok.injEq] at h
      obtain ⟨rfl, rfl⟩ := h
      have hexp : ((reqs ++ [params]).length : Int) * ps =
          (reqs.length : Int) * ps + ps := by
        push_cast [List.length_append, List.length_singleton]
        ring
      rw [hexp]
      linarith
    · cases data with
      | obj fs =>
        rcases hpi : pyIter ((jlookup fs "studies").getD (Json.arr [])) with _ | items
        · simp [fetchGo, hsv, hpi] at h
        · have hlen : (items.length : Int) ≤ ps :=
            hserver params (Json.obj fs) items hsv (by simp [pageItems, hpi])
          have hfm : (((items.filterMap extractStudyData).length : Int)) ≤ ps :=
            le_trans
              (by exact_mod_cast List.length_filterMap_le extractStudyData items)
              hlen
          have hexp : ((reqs ++ [params]).length : Int) * ps =
              (reqs.length : Int) * ps + ps := by
            push_cast [List.length_append, List.length_singleton]
            ring
          rcases htk : jlookup fs "nextPageToken" with _ | tok
          · simp only [fetchGo, hsv, hpi, htk, Prod.mk.injEq, Except.ok.injEq] at h
            obtain ⟨rfl, rfl⟩ := h
            rw [hexp]
            push_cast [List.length_append]
            linarith
          · cases htr : pyTruthy tok
            · simp only [fetchGo, hsv, hpi, htk, htr, Bool.false_eq_true, if_false,
                Prod.mk.injEq, Except.ok.injEq] at h
              obtain ⟨rfl, rfl⟩ := h
              rw [hexp]
              push_cast [List.length_append]
              linarith
            · simp only [fetchGo, hsv, hpi, htk, htr, if_true] at h
              have hrec := ih _ _ _ _ _ h
              rw [hexp] at hrec
              have : ((acc ++ items.filterMap extractStudyData).length : Int) =
                  (acc.length : Int) + (items.filterMap extractStudyData).length := by
                push_cast [List.length_append]
                ring
              rw [this] at hrec
              linarith
      | null => simp [fetchGo, hsv] at h
      | bool b => simp [fetchGo, hsv] at h
      | num m => simp [fetchGo, hsv] at h
      | str s => simp [fetchGo, hsv] at h
      | arr xs => simp [fetchGo, hsv] at h

/-- C5: when the server honours the requested page size (each served page
carries at most `page_size` records), the returned sequence is never
negative in length and is at most (requests issued × page_size) long. -/
theorem c5_result_length_bound :
    ∀ (server : List (String × Json) → Option Json)
      (query_params : List (String × Json)) (max_pages : Nat) (page_size : Int),
      0 ≤ page_size →
      (∀ params data items, server params = some data →
        pageItems data = some items → (items.length : Int) ≤ page_size) →
      ∀ l, (fetchAllTrials server query_params max_pages page_size).result =
          Except.ok l →
        (0 : Int) ≤ (l.length : Int) ∧
        (l.length : Int) ≤
          ((fetchAllTrials server query_params max_pages page_size).requests.length :
            Int) * page_size := by
  intro server qp mp ps hps hserver l hl
  have hr : fetchGo server mp (dictSet qp "pageSize" (Json.num ps)) [] [] =
      ((fetchAllTrials server qp mp ps).result,
        (fetchAllTrials server qp mp ps).requests) := rfl
  rw [hl] at hr
  have := fetchGo_length_le server ps hserver hps mp
    (dictSet qp "pageSize" (Json.num ps)) [] [] l
    (fetchAllTrials server qp mp ps).requests hr
  constructor
  · exact_mod_cast Int.ofNat_nonneg l.length
  · simpa using this

/-- C5 witness: the canned chained server serves at most one record per
page, and the three-page run's result length (2) is within
3 requests × page size 1. -/
theorem c5_witness :
    (0 : Int) ≤ (([emptyStudyRecord, emptyStudyRecord] :
      List (List (String × Json))).length : Int) ∧
    ((([emptyStudyRecord, emptyStudyRecord] :
      List (List (String × Json))).length : Int)) ≤
      ((fetchAllTrials chainedServer [] 5 1).requests.length : Int) * 1 := by
  have hbound : ∀ params data items, chainedServer params = some data →
      pageItems data = some items → (items.length : Int) ≤ 1 := by
    intro params data items h1 h2
    unfold chainedServer at h1
    split at h1
    · obtain rfl := Option.some.inj h1
      obtain rfl := Option.some.inj h2
      decide
    · obtain rfl := Option.some.inj h1
      obtain rfl := Option.some.inj h2
      decide
    · obtain rfl := Option.some.inj h1
      obtain rfl := Option.some.inj h2
      decide
    · exact Option.noConfusion h1
  exact c5_result_length_bound chainedServer [] 5 1 (by decide) hbound
    [emptyStudyRecord, emptyStudyRecord] rfl

/-- Loop invariant for C6: every request the loop issues still carries the
injected page-size parameter (installing the continuation token does not
disturb it). -/
theorem fetchGo_params_pageSize (server : List (String × Json) → Option Json)
    (v : Json) :
    ∀ (n : Nat) params acc reqs,
      jlookup params "pageSize" = some v →
      (∀ r ∈ reqs, jlookup r "pageSize" = some v) →
      ∀ r ∈ (fetchGo server n params acc reqs).2, jlookup r "pageSize" = some v := by
  intro n
  induction n with
  | zero =>
    intro params acc reqs hp hr
    simpa [fetchGo] using hr
  | succ n ih =>
    intro params acc reqs hp hr
    have hr' : ∀ r ∈ reqs ++ [params], jlookup r "pageSize" = some v := by
      intro r hmem
      rcases List.mem_append.mp hmem with hmem | hmem
      · exact hr r hmem
      · rw [List.mem_singleton.mp hmem]
        exact hp
    rcases hsv : server params with _ | data
    · simpa [fetchGo, hsv] using hr'
    · cases data with
      | obj fs =>
        rcases hpi : pyIter ((jlookup fs "studies").getD (Json.arr [])) with _ | items
        · simpa [fetchGo, hsv, hpi] using hr'
        · rcases htk : jlookup fs "nextPageToken" with _ | tok
          · simpa [fetchGo, hsv, hpi, htk] using hr'
          · cases htr : pyTruthy tok
            · simpa [fetchGo, hsv, hpi, htk, htr] using hr'
            · have hp' : jlookup (dictSet params "pageToken" tok) "pageSize" = some v :=
                (jlookup_dictSet_ne "pageToken" "pageSize" tok (by decide) params).trans
                  hp
              simp only [fetchGo, hsv, hpi, htk, htr, if_true]
              exact ih _ _ _ hp' hr'
      | null => simpa [fetchGo, hsv] using hr'
      | bool b => simpa [fetchGo, hsv] using hr'
      | num m => simpa [fetchGo, hsv] using hr'
      | str s => simpa [fetchGo, hsv] using hr'
      | arr xs => simpa [fetchGo, hsv] using hr'

/-- C6: the caller's query mapping comes back exactly as it was passed in
(the loop works on a copy), while every issued request carries the
injected pageSize on that copy. -/
theorem c6_caller_query_unchanged :
    ∀ (server : List (String × Json) → Option Json)
      (query_params : List (String × Json)) (max_pages : Nat) (page_size : Int),
      (fetchAllTrials server query_params max_pages page_size).callerQuery =
        query_params ∧
      ∀ r ∈ (fetchAllTrials server query_params max_pages page_size).requests,
        jlookup r "pageSize" = some (Json.num page_size) := by
  intro server qp mp ps
  refine ⟨rfl, ?_⟩
  intro r hr
  exact fetchGo_params_pageSize server (Json.num ps) mp
    (dictSet qp "pageSize" (Json.num ps)) [] []
    (jlookup_dictSet_self "pageSize" (Json.num ps) qp) (by simp) r hr

/-- C6 witness: a concrete call returns the caller's dict unchanged and
the one issued request carries the pageSize key the original never
gains. -/
theorem c6_witness :
    (fetchAllTrials (fun _ => none) [("query.cond", Json.str "x")] 10
      100).callerQuery = [("query.cond", Json.str "x")] ∧
    jlookup [("query.cond", Json.str "x"), ("pageSize", Json.num 100)] "pageSize" =
      some (Json.num 100) ∧
    jlookup [("query.cond", Json.str "x")] "pageSize" = none := by
  have hc := c6_caller_query_unchanged (fun _ => none)
    [("query.cond", Json.str "x")] 10 100
  exact ⟨hc.1, hc.2 [("query.cond", Json.str "x"), ("pageSize", Json.num 100)]
    (List.mem_singleton.mpr rfl), rfl⟩
